import Mathlib

/-!
Verification of the ClaudeKarma usage-acquisition and icon-rendering core.

The definitions below are shallow embeddings of the extension's JavaScript
source.  Each definition's doc comment names the source file and lines it
embeds.  JavaScript numbers are modelled as rationals (`ℚ`), timestamps as
integers (epoch milliseconds), absent/`null`/`undefined` fields as `Option`,
and the `NaN` produced by `new Date(bad).getTime()` with a dedicated
constructor of `ResetTime`.
-/

namespace ClaudeKarma

/-- A quota object of the org usage API response
(`five_hour` / `seven_day` / `seven_day_<model>` in
`src/unnamed/part_003`, `parseOrgUsageResponse`): a numeric `utilization`
and an optional `resets_at` string.  `none` models an absent field. -/
structure Quota where
  utilization : Option ℚ
  resets_at : Option String
deriving Repr, DecidableEq

/-- An org usage API payload (`src/unnamed/part_003` lines 168-199).
The five named fields are the ones the parser reads explicitly;
`otherFields` holds the payload's remaining enumerable keys in insertion
order, as enumerated by `Object.keys` for the `seven_day_*` fallback
scan.  A field that is absent (or JSON-`null`, which the parser treats as
falsy in every branch) is `none`. -/
structure OrgUsageData where
  five_hour : Option Quota
  seven_day : Option Quota
  seven_day_opus : Option Quota
  seven_day_sonnet : Option Quota
  seven_day_haiku : Option Quota
  otherFields : List (String × Quota)
deriving Repr, DecidableEq

/-- The JavaScript idiom `x || d` on an optional number: `undefined`,
`null` and `0` are falsy and yield `d`; any other number is returned. -/
def jsOr (x : Option ℚ) (d : ℚ) : ℚ :=
  match x with
  | none => d
  | some v => if v = 0 then d else v

/-- Result of `new Date(s).getTime()` stored in a `resetTimestamp` slot:
`rnull` is JavaScript `null`, `rnan` is `NaN` (an invalid `Date`),
`rtime ms` is a finite epoch-millisecond value. -/
inductive ResetTime where
  | rnull : ResetTime
  | rnan : ResetTime
  | rtime (ms : Int) : ResetTime
deriving Repr, DecidableEq

/-- Leap-year test of the proleptic Gregorian calendar. -/
def isLeapYear (y : Nat) : Bool :=
  (y % 4 = 0 && y % 100 != 0) || y % 400 = 0

/-- Number of days of month `m` (1-12) in year `y`. -/
def daysInMonth (y m : Nat) : Nat :=
  if m = 2 then (if isLeapYear y then 29 else 28)
  else if m = 4 || m = 6 || m = 9 || m = 11 then 30
  else 31

/-- Days from 1970-01-01 to `y`-01-01, for `y ≥ 1970`. -/
def daysBeforeYear (y : Nat) : Nat :=
  (List.range (y - 1970)).foldl
    (fun acc i => acc + (if isLeapYear (1970 + i) then 366 else 365)) 0

/-- Days from `y`-01-01 to `y`-`m`-01. -/
def daysBeforeMonth (y m : Nat) : Nat :=
  (List.range (m - 1)).foldl (fun acc i => acc + daysInMonth y (i + 1)) 0

/-- Numeric value of a decimal digit character, `none` otherwise. -/
def digitVal (c : Char) : Option Nat :=
  if c.isDigit then some (c.toNat - 48) else none

/-- Two decimal digit characters as a number. -/
def twoDigits (a b : Char) : Option Nat := do
  let x ← digitVal a
  let y ← digitVal b
  pure (10 * x + y)

/-- Modelled from the spec: the ECMAScript `new Date(s).getTime()` parser
invoked by `parseOrgUsageResponse` on `resets_at` values is a runtime
builtin, not repository code; the spec describes those values as
ISO-8601.  This model accepts exactly the UTC date-time form
`YYYY-MM-DDTHH:MM:SSZ` with in-range components and year ≥ 1970, and
returns the epoch milliseconds; every other string is a parse failure
(`none`, where the runtime yields `NaN`). -/
def parseISO8601 (s : String) : Option Int :=
  match s.toList with
  | [y1, y2, y3, y4, '-', mo1, mo2, '-', dd1, dd2, 'T',
     hh1, hh2, ':', mi1, mi2, ':', ss1, ss2, 'Z'] => do
    let hi ← twoDigits y1 y2
    let lo ← twoDigits y3 y4
    let y := 100 * hi + lo
    let mo ← twoDigits mo1 mo2
    let dd ← twoDigits dd1 dd2
    let hh ← twoDigits hh1 hh2
    let mi ← twoDigits mi1 mi2
    let ss ← twoDigits ss1 ss2
    if 1970 ≤ y ∧ 1 ≤ mo ∧ mo ≤ 12 ∧ 1 ≤ dd ∧ dd ≤ daysInMonth y mo ∧
        hh ≤ 23 ∧ mi ≤ 59 ∧ ss ≤ 59 then
      let days := daysBeforeYear y + daysBeforeMonth y mo + (dd - 1)
      pure ((((((days * 24 + hh) * 60 + mi) * 60 + ss) * 1000 : Nat) : Int))
    else none
  | _ => none

/-- The `resets_at` mapping of `parseOrgUsageResponse`
(`src/unnamed/part_003` lines 210, 215, 221):
`q.resets_at ? new Date(q.resets_at).getTime() : null`.
An absent or empty (falsy) string yields `null`; otherwise the `Date`
parse yields the epoch milliseconds, or `NaN` on failure. -/
def quotaReset (q : Quota) : ResetTime :=
  match q.resets_at with
  | none => ResetTime.rnull
  | some s =>
    if s = "" then ResetTime.rnull
    else
      match parseISO8601 s with
      | some t => ResetTime.rtime t
      | none => ResetTime.rnan

/-- `key.replace(pat, repl)` for a string `pat`: replace the first
occurrence only (JavaScript `String.prototype.replace` semantics),
on character lists. -/
def replaceFirstList (pat repl : List Char) : List Char → List Char
  | [] => []
  | c :: rest =>
    if pat.isPrefixOf (c :: rest) then repl ++ (c :: rest).drop pat.length
    else c :: replaceFirstList pat repl rest

/-- `s.replace(pat, repl)` (first occurrence only). -/
def replaceFirst (s pat repl : String) : String :=
  ⟨replaceFirstList pat.toList repl.toList s.toList⟩

/-- The model-name derivation of `src/unnamed/part_003` line 197:
`key.replace('seven_day_', '').charAt(0).toUpperCase() +
 key.replace('seven_day_', '').slice(1)`. -/
def capitalizeModelKey (key : String) : String :=
  match (replaceFirst key "seven_day_" "").toList with
  | [] => ""
  | c :: rest => ⟨c.toUpper :: rest⟩

/-- The `seven_day_*` fallback key scan of `src/unnamed/part_003`
line 192: `Object.keys(data).filter(k => k.startsWith('seven_day_') &&
k !== 'seven_day')` restricted to the non-named fields (the named
`seven_day_opus/sonnet/haiku` fields are all absent whenever this scan
runs, and `five_hour`/`seven_day` do not pass the filter). -/
def modelKeys (data : OrgUsageData) : List (String × Quota) :=
  data.otherFields.filter
    (fun kv => kv.1.startsWith "seven_day_" && kv.1 != "seven_day")

/-- The model-specific limit selection of `src/unnamed/part_003`
lines 178-199: priority `seven_day_opus` (name `'Opus'`), then
`seven_day_sonnet` (`'Sonnet'`), then `seven_day_haiku` (`'Haiku'`),
then the first other `seven_day_*` key with its capitalized remainder;
otherwise `(null, null)`. -/
def selectModelLimit (data : OrgUsageData) : Option Quota × Option String :=
  match data.seven_day_opus with
  | some q => (some q, some "Opus")
  | none =>
    match data.seven_day_sonnet with
    | some q => (some q, some "Sonnet")
    | none =>
      match data.seven_day_haiku with
      | some q => (some q, some "Haiku")
      | none =>
        match modelKeys data with
        | [] => (none, none)
        | (k, q) :: _ => (some q, some (capitalizeModelKey k))

/-- `currentSession` slot of a parsed snapshot. -/
structure SessionSlot where
  percentage : ℚ
  resetTimestamp : ResetTime
deriving Repr, DecidableEq

/-- A weekly-limit slot (`allModels` / `sonnetOnly`). -/
structure WeeklySlot where
  percentage : ℚ
  resetTimestamp : ResetTime
  resetDay : Option String
  resetTime : Option String
deriving Repr, DecidableEq

/-- The `modelSpecific` weekly slot produced by `parseOrgUsageResponse`. -/
structure ModelSlot where
  percentage : ℚ
  resetTimestamp : ResetTime
  resetDay : Option String
  resetTime : Option String
  modelName : Option String
deriving Repr, DecidableEq

/-- `weeklyLimits` of the org-API parse result. -/
structure ApiWeeklyLimits where
  allModels : WeeklySlot
  modelSpecific : ModelSlot
deriving Repr, DecidableEq

/-- Result shape of `parseOrgUsageResponse` (the `_raw` debug
passthrough is omitted). -/
structure OrgParseResult where
  currentSession : SessionSlot
  weeklyLimits : ApiWeeklyLimits
deriving Repr, DecidableEq

/-- The `modelLimit ? Math.min(modelLimit.utilization || 0, 100) : 0`
computation of `src/unnamed/part_003` line 205. -/
def modelPctOf : Option Quota → ℚ
  | some q => min (jsOr q.utilization 0) 100
  | none => 0

/-- The `modelLimit?.resets_at ? ... : null` computation of
`src/unnamed/part_003` line 221. -/
def modelResetOf : Option Quota → ResetTime
  | some q => quotaReset q
  | none => ResetTime.rnull

/-- Embedding of `parseOrgUsageResponse` (`src/unnamed/part_003`
lines 168-229).  `data.five_hour || {}` / `data.seven_day || {}` default
an absent quota object to the empty object; percentages are
`Math.min(utilization || 0, 100)` (lines 203-205) — note there is no
lower bound applied; reset timestamps follow `quotaReset`. -/
def parseOrgUsageResponse (data : OrgUsageData) : OrgParseResult :=
  let fiveHour := data.five_hour.getD ⟨none, none⟩
  let sevenDay := data.seven_day.getD ⟨none, none⟩
  let sel := selectModelLimit data
  { currentSession :=
      { percentage := min (jsOr fiveHour.utilization 0) 100
        resetTimestamp := quotaReset fiveHour }
    weeklyLimits :=
      { allModels :=
          { percentage := min (jsOr sevenDay.utilization 0) 100
            resetTimestamp := quotaReset sevenDay
            resetDay := none
            resetTime := none }
        modelSpecific :=
          { percentage := modelPctOf sel.1
            resetTimestamp := modelResetOf sel.1
            resetDay := none
            resetTime := none
            modelName := sel.2 } } }

/-- Payload with a negative `five_hour.utilization`, exercising the
missing lower clamp. -/
def c1NegPayload : OrgUsageData :=
  ⟨some ⟨some (-5), none⟩, some ⟨some 10, none⟩, none, none, none, []⟩

/-- C1 counterexample: the claim says normalization stores
`clamp(u, 0, 100)`, raising values below 0 to 0.  On the payload with
`five_hour.utilization = -5` the code stores `-5` (the source computes
only `Math.min(u || 0, 100)`, line 203), while `clamp(-5, 0, 100) = 0`. -/
theorem c1_clamp_counterexample :
    (parseOrgUsageResponse c1NegPayload).currentSession.percentage = -5 ∧
    min (max (-5 : ℚ) 0) 100 = 0 ∧
    ((-5 : ℚ) ≠ min (max (-5 : ℚ) 0) 100) := by
  refine ⟨?_, by norm_num, by norm_num⟩
  rfl

/-- C1 amended: for a present raw utilization `u` of the five-hour or
seven-day quota object, the stored percentage is `min(u, 100)` — values
above 100 are lowered to 100, but values below 0 are stored unchanged
(there is no lower clamp); an absent utilization defaults to 0. -/
theorem c1_upper_clamp_only (data : OrgUsageData) (q r : Quota) (u v : ℚ)
    (hq : data.five_hour = some q) (hu : q.utilization = some u)
    (hr : data.seven_day = some r) (hv : r.utilization = some v) :
    (parseOrgUsageResponse data).currentSession.percentage = min u 100 ∧
    (parseOrgUsageResponse data).weeklyLimits.allModels.percentage = min v 100 := by
  unfold parseOrgUsageResponse
  rw [hq, hr]
  simp only [Option.getD_some]
  rw [hu, hv]
  constructor
  · by_cases h : u = 0 <;> simp [jsOr, h]
  · by_cases h : v = 0 <;> simp [jsOr, h]

/-- Payload for the C1 witness: utilization 150 (above the cap) and
-3 (below zero). -/
def c1WitnessPayload : OrgUsageData :=
  ⟨some ⟨some 150, none⟩, some ⟨some (-3), none⟩, none, none, none, []⟩

/-- Witness for `c1_upper_clamp_only` at a concrete payload. -/
theorem c1_upper_clamp_only_witness :
    (parseOrgUsageResponse c1WitnessPayload).currentSession.percentage =
      min (150 : ℚ) 100 ∧
    (parseOrgUsageResponse c1WitnessPayload).weeklyLimits.allModels.percentage =
      min (-3 : ℚ) 100 :=
  c1_upper_clamp_only c1WitnessPayload ⟨some 150, none⟩ ⟨some (-3), none⟩
    150 (-3) rfl rfl rfl rfl

/-- C5: the model-specific weekly quota is selected by the fixed priority
order Opus, then Sonnet, then Haiku, then the first remaining
`seven_day_*` key; in particular whenever the flagship (`seven_day_opus`)
field is present — so in every payload containing both a flagship and a
mid-tier field — the flagship quota is the one stored in
`weeklyModelSpecific`, and the hard-coded name `'Opus'` agrees with
capitalizing the key's remainder after the `seven_day_` prefix. -/
theorem c5_model_priority :
    (∀ data q, data.seven_day_opus = some q →
      selectModelLimit data = (some q, some "Opus") ∧
      (parseOrgUsageResponse data).weeklyLimits.modelSpecific.modelName =
        some "Opus" ∧
      (parseOrgUsageResponse data).weeklyLimits.modelSpecific.percentage =
        min (jsOr q.utilization 0) 100) ∧
    (∀ data q, data.seven_day_opus = none → data.seven_day_sonnet = some q →
      selectModelLimit data = (some q, some "Sonnet")) ∧
    (∀ data q, data.seven_day_opus = none → data.seven_day_sonnet = none →
      data.seven_day_haiku = some q →
      selectModelLimit data = (some q, some "Haiku")) ∧
    (∀ data k q rest, data.seven_day_opus = none →
      data.seven_day_sonnet = none → data.seven_day_haiku = none →
      modelKeys data = (k, q) :: rest →
      selectModelLimit data = (some q, some (capitalizeModelKey k))) ∧
    capitalizeModelKey "seven_day_opus" = "Opus" := by
  refine ⟨?_, ?_, ?_, ?_, by decide⟩
  · intro data q h
    have hsel : selectModelLimit data = (some q, some "Opus") := by
      unfold selectModelLimit
      rw [h]
    refine ⟨hsel, ?_, ?_⟩ <;>
      simp [parseOrgUsageResponse, hsel, modelPctOf]
  · intro data q h1 h2
    unfold selectModelLimit
    rw [h1, h2]
  · intro data q h1 h2 h3
    unfold selectModelLimit
    rw [h1, h2, h3]
  · intro data k q rest h1 h2 h3 h4
    unfold selectModelLimit
    rw [h1, h2, h3, h4]

/-- Payload with both a flagship (`seven_day_opus`) and a mid-tier
(`seven_day_sonnet`) weekly model field. -/
def c5WitnessPayload : OrgUsageData :=
  ⟨some ⟨some 40, none⟩, some ⟨some 10, none⟩,
   some ⟨some 55, none⟩, some ⟨some 30, none⟩, none, []⟩

/-- Witness for `c5_model_priority`: with both Opus and Sonnet fields
present, the Opus field is selected. -/
theorem c5_model_priority_witness :
    selectModelLimit c5WitnessPayload =
      (some ⟨some 55, none⟩, some "Opus") ∧
    (parseOrgUsageResponse c5WitnessPayload).weeklyLimits.modelSpecific.modelName =
      some "Opus" ∧
    (parseOrgUsageResponse c5WitnessPayload).weeklyLimits.modelSpecific.percentage =
      min (jsOr (some 55) 0) 100 :=
  c5_model_priority.1 c5WitnessPayload ⟨some 55, none⟩ rfl

/-- C6 counterexample: the claim says an unparseable `resets_at` maps to
`null`.  On `five_hour.resets_at = "not-a-date"` (which no `Date` parse
accepts) the code stores `new Date("not-a-date").getTime()`, i.e. `NaN`,
not `null` (`src/unnamed/part_003` line 210). -/
theorem c6_resets_counterexample :
    (parseOrgUsageResponse
        ⟨some ⟨some 42, some "not-a-date"⟩, none, none, none, none, []⟩
      ).currentSession.resetTimestamp = ResetTime.rnan ∧
    ResetTime.rnan ≠ ResetTime.rnull := by
  exact ⟨by rfl, by decide⟩

/-- C6 amended: normalization maps `resets_at` to its epoch-milliseconds
timestamp when it is a parseable ISO-8601 string, to `null` when the
field is absent (or empty), and to `NaN` — not `null` — when it is
present but unparseable; the concrete input
`five_hour = (utilization 42, resets_at "2026-01-01T00:00:00Z")` yields
`sessionPercentage = 42` and `sessionResetAt` the epoch milliseconds of
that instant. -/
theorem c6_resets_amended (data : OrgUsageData) (q : Quota)
    (hq : data.five_hour = some q) :
    (q.resets_at = none →
      (parseOrgUsageResponse data).currentSession.resetTimestamp =
        ResetTime.rnull) ∧
    (∀ s t, q.resets_at = some s → parseISO8601 s = some t →
      (parseOrgUsageResponse data).currentSession.resetTimestamp =
        ResetTime.rtime t) ∧
    (∀ s, q.resets_at = some s → s ≠ "" → parseISO8601 s = none →
      (parseOrgUsageResponse data).currentSession.resetTimestamp =
        ResetTime.rnan) := by
  refine ⟨?_, ?_, ?_⟩
  · intro h
    simp [parseOrgUsageResponse, hq, quotaReset, h]
  · intro s t hs ht
    have hne : s ≠ "" := by
      intro he
      rw [he] at ht
      simp [parseISO8601] at ht
    simp [parseOrgUsageResponse, hq, quotaReset, hs, hne, ht]
  · intro s hs hne ht
    simp [parseOrgUsageResponse, hq, quotaReset, hs, hne, ht]

/-- The concrete payload of the C6 example. -/
def c6ExamplePayload : OrgUsageData :=
  ⟨some ⟨some 42, some "2026-01-01T00:00:00Z"⟩,
   some ⟨some 10, none⟩, none, none, none, []⟩

/-- Witness for `c6_resets_amended`: the example payload stores the
epoch milliseconds of 2026-01-01T00:00:00Z (and session percentage 42,
checked directly on the parse result). -/
theorem c6_resets_amended_witness :
    (parseOrgUsageResponse c6ExamplePayload).currentSession.resetTimestamp =
      ResetTime.rtime 1767225600000 ∧
    (parseOrgUsageResponse c6ExamplePayload).currentSession.percentage = 42 :=
  ⟨(c6_resets_amended c6ExamplePayload ⟨some 42, some "2026-01-01T00:00:00Z"⟩
      rfl).2.1 "2026-01-01T00:00:00Z" 1767225600000 rfl (by decide),
   by rfl⟩

/-! ### Acquisition throttling and interleaving

`fetchUsageData` (`src/unnamed/part_003` lines 73-115) is an async
function; the JavaScript event loop interleaves concurrent invocations
only at `await` suspension points.  Each invocation is modelled as two
atomic segments separated by its awaits: the throttle guard
(`lastFetch && Date.now() - lastFetch < TIMING.MIN_FETCH_INTERVAL_MS`,
lines 76-80), and the acquisition round itself, abstracted to one
network-attempt event which, on the paths that store a snapshot
(`saveUsageData`, `handleNotAuthenticated`, or the `needs_setup` block),
is followed by one storage write setting `lastFetchedAt` to the write
time.  The source has no in-flight flag; neither does the model. -/

/-- `TIMING.MIN_FETCH_INTERVAL_MS` (`src/claudeKarma/lib/constants.js`
line 35). -/
def MIN_FETCH_INTERVAL_MS : Int := 30000

/-- The throttle guard of `fetchUsageData`:
`lastFetch && Date.now() - lastFetch < TIMING.MIN_FETCH_INTERVAL_MS`
(a stored `lastFetchedAt` of `null` or `0` is falsy). -/
def throttles (lastFetch : Option Int) (now : Int) : Bool :=
  match lastFetch with
  | none => false
  | some t => t != 0 && decide (now - t < MIN_FETCH_INTERVAL_MS)

/-- Configuration of one `fetchUsageData` invocation: the time at which
its throttle guard evaluates `Date.now()`, whether its acquisition round
ends in a storage write, and the `Date.now()` of that write. -/
structure InvCfg where
  startTime : Int
  writes : Bool
  writeTime : Int
deriving Repr, DecidableEq

/-- Progress of one invocation through its atomic segments. -/
inductive InvPhase where
  | atGuard : InvPhase
  | atAttempt : InvPhase
  | finished : InvPhase
deriving Repr, DecidableEq

/-- Observable events of the acquisition pipeline. -/
inductive FetchEvent where
  | netAttempt (i : Nat) : FetchEvent
  | storeWrite (i : Nat) : FetchEvent
deriving Repr, DecidableEq

/-- System state: the stored `lastFetchedAt`, each invocation's phase,
and the event log. -/
structure FetchSys where
  lastFetchedAt : Option Int
  phases : List InvPhase
  events : List FetchEvent
deriving Repr, DecidableEq

/-- One scheduler step: run invocation `i`'s next atomic segment.
At the guard, a throttled invocation finishes as a no-op; otherwise it
proceeds to its acquisition round.  The round emits a network attempt
and, if the invocation's path stores, a write that replaces
`lastFetchedAt`. -/
def fetchStep (cfg : List InvCfg) (st : FetchSys) (i : Nat) : FetchSys :=
  match cfg.get? i, st.phases.get? i with
  | some c, some InvPhase.atGuard =>
    if throttles st.lastFetchedAt c.startTime then
      { st with phases := st.phases.set i InvPhase.finished }
    else
      { st with phases := st.phases.set i InvPhase.atAttempt }
  | some c, some InvPhase.atAttempt =>
    if c.writes then
      { st with
        lastFetchedAt := some c.writeTime
        phases := st.phases.set i InvPhase.finished
        events := st.events ++ [FetchEvent.netAttempt i, FetchEvent.storeWrite i] }
    else
      { st with
        phases := st.phases.set i InvPhase.finished
        events := st.events ++ [FetchEvent.netAttempt i] }
  | _, _ => st

/-- Run a schedule (a sequence of invocation indices). -/
def fetchRun (cfg : List InvCfg) (sched : List Nat) (st : FetchSys) : FetchSys :=
  sched.foldl (fetchStep cfg) st

/-- Initial system state: stored `lastFetchedAt` `s0`, `n` invocations
waiting at their guards, empty log. -/
def fetchInit (s0 : Option Int) (n : Nat) : FetchSys :=
  ⟨s0, List.replicate n InvPhase.atGuard, []⟩

/-- C2 counterexample: the claim says that for any two invocations whose
start times differ by less than 30000 ms the second performs no network
attempt and the pair produces exactly one attempt.  With no stored
`lastFetchedAt` and a first invocation whose round fails without storing
(every strategy fails transiently), a second invocation 1000 ms later —
run strictly after the first finished — still passes the guard: the pair
produces two network attempts. -/
theorem c2_throttle_counterexample :
    (fetchRun [⟨0, false, 0⟩, ⟨1000, false, 0⟩] [0, 0, 1, 1]
        (fetchInit none 2)).events =
      [FetchEvent.netAttempt 0, FetchEvent.netAttempt 1] := by
  decide

/-- C2 amended: the guard applies uniformly to timer and manual triggers
(both run the same `fetchUsageData`), but it throttles the second
invocation only when the first one's round ended in a storage write
before the second started.  For two sequential invocations less than
30000 ms apart where the first passes its guard and stores (at a
positive write time no earlier than its start), the second is a no-op:
the pair's log is exactly one network attempt and one write, and the
stored snapshot is the first invocation's. -/
theorem c2_throttle_amended (a b : InvCfg) (s0 : Option Int)
    (h1 : throttles s0 a.startTime = false)
    (hw : a.writes = true)
    (hpos : 0 < a.writeTime)
    (hle : a.startTime ≤ a.writeTime)
    (hlt : b.startTime - a.startTime < MIN_FETCH_INTERVAL_MS) :
    fetchRun [a, b] [0, 0, 1, 1] (fetchInit s0 2) =
      ⟨some a.writeTime, [InvPhase.finished, InvPhase.finished],
       [FetchEvent.netAttempt 0, FetchEvent.storeWrite 0]⟩ := by
  have h2 : throttles (some a.writeTime) b.startTime = true := by
    unfold throttles MIN_FETCH_INTERVAL_MS
    unfold MIN_FETCH_INTERVAL_MS at hlt
    have hne : a.writeTime ≠ 0 := by omega
    have hblt : b.startTime - a.writeTime < 30000 := by omega
    simp [hne, hblt]
  simp only [fetchRun, List.foldl, fetchStep, fetchInit, List.replicate,
    List.get?, List.set, h1, hw, h2, Bool.false_eq_true, if_false, if_true,
    List.nil_append]

/-- Concrete instantiation data for the C2 witness. -/
def c2WitnessCfgA : InvCfg := ⟨5, true, 10⟩

/-- Concrete instantiation data for the C2 witness. -/
def c2WitnessCfgB : InvCfg := ⟨1000, true, 1005⟩

/-- Witness for `c2_throttle_amended`: first invocation starts at t=5 and
writes at t=10; the second starts at t=1000 and is throttled. -/
theorem c2_throttle_amended_witness :
    fetchRun [c2WitnessCfgA, c2WitnessCfgB] [0, 0, 1, 1] (fetchInit none 2) =
      ⟨some 10, [InvPhase.finished, InvPhase.finished],
       [FetchEvent.netAttempt 0, FetchEvent.storeWrite 0]⟩ :=
  c2_throttle_amended c2WitnessCfgA c2WitnessCfgB none
    (by decide) rfl (by decide) (by decide) (by decide)

/-- C3 counterexample: the claim says an in-flight flag prevents a second
invocation arriving mid-flight from producing a second network attempt or
storage write.  With a stale stored `lastFetchedAt = 1`, a first
invocation at t=100000 and a second at t=101000 whose guard runs while
the first is still in flight (schedule 0,1,0,1) both pass the guard:
the log shows two network attempts and two storage writes — while the
same pair run sequentially (schedule 0,0,1,1) is throttled down to one. -/
theorem c3_mutex_counterexample :
    (fetchRun [⟨100000, true, 100500⟩, ⟨101000, true, 101500⟩] [0, 1, 0, 1]
        (fetchInit (some 1) 2)).events =
      [FetchEvent.netAttempt 0, FetchEvent.storeWrite 0,
       FetchEvent.netAttempt 1, FetchEvent.storeWrite 1] ∧
    (fetchRun [⟨100000, true, 100500⟩, ⟨101000, true, 101500⟩] [0, 0, 1, 1]
        (fetchInit (some 1) 2)).events =
      [FetchEvent.netAttempt 0, FetchEvent.storeWrite 0] := by
  constructor <;> decide

/-- C3 amended: the source has no in-flight flag, and mutual exclusion
does not hold: whenever a second invocation's guard runs while a first
invocation is in flight (after the first's guard, before its write), and
the stored `lastFetchedAt` throttles neither, both invocations perform
their own network attempt and — when their rounds store — their own
storage write; the second caller runs a full second attempt instead of
receiving the first one's result. -/
theorem c3_no_mutex_amended (a b : InvCfg) (s0 : Option Int)
    (h1 : throttles s0 a.startTime = false)
    (h2 : throttles s0 b.startTime = false)
    (hw1 : a.writes = true) (hw2 : b.writes = true) :
    fetchRun [a, b] [0, 1, 0, 1] (fetchInit s0 2) =
      ⟨some b.writeTime, [InvPhase.finished, InvPhase.finished],
       [FetchEvent.netAttempt 0, FetchEvent.storeWrite 0,
        FetchEvent.netAttempt 1, FetchEvent.storeWrite 1]⟩ := by
  simp only [fetchRun, List.foldl, fetchStep, fetchInit, List.replicate,
    List.get?, List.set, h1, h2, hw1, hw2, Bool.false_eq_true, if_false,
    if_true, List.nil_append]
  rfl

/-- Witness for `c3_no_mutex_amended` at the concrete overlapping pair. -/
theorem c3_no_mutex_amended_witness :
    fetchRun [⟨100000, true, 100500⟩, ⟨101000, true, 101500⟩] [0, 1, 0, 1]
        (fetchInit (some 1) 2) =
      ⟨some 101500, [InvPhase.finished, InvPhase.finished],
       [FetchEvent.netAttempt 0, FetchEvent.storeWrite 0,
        FetchEvent.netAttempt 1, FetchEvent.storeWrite 1]⟩ :=
  c3_no_mutex_amended ⟨100000, true, 100500⟩ ⟨101000, true, 101500⟩ (some 1)
    (by decide) (by decide) rfl rfl

/-! ### Scraped-HTML extraction

Embedding of `extractUsageFromHTML` (`src/unnamed/part_002`
lines 281-335).  Its three regexes are implemented as character-list
scanners with JavaScript `exec`-loop semantics: repeatedly find the
leftmost match and continue after its end, one char at a time on
failure.  `\s` is modelled by its ASCII subset and the `/i` flag by
ASCII case folding, which is exact on the inputs considered here. -/

/-- ASCII whitespace, the relevant subset of the regex class `\s`. -/
def isWS (c : Char) : Bool :=
  c = ' ' || c = '\t' || c = '\n' || c = '\r'

/-- Split a maximal leading digit run (the greedy `(\d+)`). -/
def takeDigits : List Char → List Char × List Char
  | [] => ([], [])
  | c :: rest =>
    if c.isDigit then
      let (ds, r) := takeDigits rest
      (c :: ds, r)
    else ([], c :: rest)

/-- Skip maximal leading whitespace (the greedy `\s*`). -/
def skipWS : List Char → List Char
  | [] => []
  | c :: rest => if isWS c then skipWS rest else c :: rest

/-- Case-insensitively strip a literal from the front, returning the
remainder on success. -/
def ciStrip : List Char → List Char → Option (List Char)
  | [], l => some l
  | _ :: _, [] => none
  | p :: ps, c :: cs => if p.toLower = c.toLower then ciStrip ps cs else none

/-- `parseInt(digits, 10)`. -/
def natOfDigits (ds : List Char) : Nat :=
  ds.foldl (fun acc c => 10 * acc + (c.toNat - 48)) 0

/-- Anchored match of `/(\d+)\s*%\s*(?:utilisés?|used)/i`
(`src/unnamed/part_002` line 293), returning the captured number and the
remainder after the match. -/
def matchUsedAt (l : List Char) : Option (Nat × List Char) :=
  let (ds, r1) := takeDigits l
  if ds.isEmpty then none
  else
    match skipWS r1 with
    | '%' :: r3 =>
      let r4 := skipWS r3
      match ciStrip "utilisé".toList r4 with
      | some r5 =>
        match r5 with
        | 's' :: r6 => some (natOfDigits ds, r6)
        | 'S' :: r6 => some (natOfDigits ds, r6)
        | _ => some (natOfDigits ds, r5)
      | none =>
        match ciStrip "used".toList r4 with
        | some r5 => some (natOfDigits ds, r5)
        | none => none
    | _ => none

/-- Anchored match of `/(\d+)\s*%\s*(?:of\s+)?(?:limit|quota)/i`
(`src/unnamed/part_002` line 294).  The optional `of\s+` group requires
at least one whitespace after `of`; if the following literal then fails,
the regex backtracks to not taking the group, as modelled here. -/
def matchLimitAt (l : List Char) : Option (Nat × List Char) :=
  let (ds, r1) := takeDigits l
  if ds.isEmpty then none
  else
    match skipWS r1 with
    | '%' :: r3 =>
      let r4 := skipWS r3
      let r5 :=
        match ciStrip "of".toList r4 with
        | some rr =>
          match rr with
          | c :: _ => if isWS c then skipWS rr else r4
          | [] => r4
        | none => r4
      match ciStrip "limit".toList r5 with
      | some r6 => some (natOfDigits ds, r6)
      | none =>
        match ciStrip "quota".toList r5 with
        | some r6 => some (natOfDigits ds, r6)
        | none =>
          match ciStrip "limit".toList r4 with
          | some r6 => some (natOfDigits ds, r6)
          | none =>
            match ciStrip "quota".toList r4 with
            | some r6 => some (natOfDigits ds, r6)
            | none => none
    | _ => none

/-- Anchored match of `/style="width:\s*(\d+)%/i`
(`src/unnamed/part_002` line 309). -/
def matchWidthAt (l : List Char) : Option (Nat × List Char) :=
  match ciStrip "style=\"width:".toList l with
  | some r1 =>
    let (ds, r3) := takeDigits (skipWS r1)
    if ds.isEmpty then none
    else
      match r3 with
      | '%' :: r4 => some (natOfDigits ds, r4)
      | _ => none
  | none => none

/-- The `while ((match = pattern.exec(html)) !== null)` loop: collect
captures of successive leftmost matches.  The fuel argument (the input
length) bounds the iteration count; every matcher above consumes at
least one character, so the fuel never runs out early. -/
def scanAux (m : List Char → Option (Nat × List Char)) :
    Nat → List Char → List Nat
  | 0, _ => []
  | _, [] => []
  | fuel + 1, c :: rest =>
    match m (c :: rest) with
    | some (v, r) => v :: scanAux m fuel r
    | none => scanAux m fuel rest

/-- All captures of a pattern over a string, in document order. -/
def scanAll (m : List Char → Option (Nat × List Char)) (s : String) : List Nat :=
  scanAux m s.toList.length s.toList

/-- `weeklyLimits` of the scrape result (`allModels`, `sonnetOnly`). -/
structure ScrapeWeeklyLimits where
  allModels : WeeklySlot
  sonnetOnly : WeeklySlot
deriving Repr, DecidableEq

/-- Result shape of `extractUsageFromHTML`. -/
structure ScrapeResult where
  currentSession : SessionSlot
  weeklyLimits : ScrapeWeeklyLimits
deriving Repr, DecidableEq

/-- Tier-1 values (`usedValues`, `src/unnamed/part_002` lines 297-303):
captures of the two "used" patterns, first pattern's matches first. -/
def usedValuesOf (html : String) : List Nat :=
  scanAll matchUsedAt html ++ scanAll matchLimitAt html

/-- Tier-2 values (`widthValues`, lines 309-315): progress-bar width
captures. -/
def widthValuesOf (html : String) : List Nat :=
  scanAll matchWidthAt html

/-- Embedding of `extractUsageFromHTML` (`src/unnamed/part_002`
lines 281-335): `percentages = usedValues.length >= 3 ? usedValues :
widthValues`; with at least three values they are assigned positionally
to session, all-models, sonnet-only; with one or two, the same positions
are filled with `percentages[i] || 0`.  The reset-time extraction of
lines 337-375 touches only the reset fields, never a percentage, and is
omitted; the reset fields keep their initialized `null`s. -/
def extractUsageFromHTML (html : String) : ScrapeResult :=
  let usedValues := usedValuesOf html
  let widthValues := widthValuesOf html
  let percentages := if 3 ≤ usedValues.length then usedValues else widthValues
  let p : Nat → ℚ := fun i => (((percentages.get? i).getD 0 : Nat) : ℚ)
  if 3 ≤ percentages.length then
    ⟨⟨p 0, ResetTime.rnull⟩,
     ⟨⟨p 1, ResetTime.rnull, none, none⟩, ⟨p 2, ResetTime.rnull, none, none⟩⟩⟩
  else if 0 < percentages.length then
    ⟨⟨p 0, ResetTime.rnull⟩,
     ⟨⟨p 1, ResetTime.rnull, none, none⟩, ⟨p 2, ResetTime.rnull, none, none⟩⟩⟩
  else
    ⟨⟨0, ResetTime.rnull⟩,
     ⟨⟨0, ResetTime.rnull, none, none⟩, ⟨0, ResetTime.rnull, none, none⟩⟩⟩

/-- The claim's HTML: the two Tier-1 phrases plus a `5%` token repeated
eight times, with no progress-bar width declarations. -/
def c4Html : String :=
  "<div>39 % utilisés</div><div>22% of limit</div>" ++
    String.join (List.replicate 8 "<span>5%</span>")

set_option maxRecDepth 100000 in
/-- C4: the claim (and the comment above the source line,
"Use 'X% used' values if found") says the first non-empty tier wins, so
this input should extract `[39, 22]` positionally.  The code instead
requires at least three Tier-1 matches (`usedValues.length >= 3`,
`src/unnamed/part_002` line 319): Tier 1 does find `[39, 22]` in
document order with the repeated `5%` excluded, but the code discards
them, falls back to the empty width-value list, and stores all-zero
percentages. -/
theorem c4_tier1_divergence :
    usedValuesOf c4Html = [39, 22] ∧
    widthValuesOf c4Html = [] ∧
    (extractUsageFromHTML c4Html).currentSession.percentage = 0 ∧
    (extractUsageFromHTML c4Html).weeklyLimits.allModels.percentage = 0 ∧
    (extractUsageFromHTML c4Html).weeklyLimits.sonnetOnly.percentage = 0 := by
  refine ⟨by decide, by decide, by rfl, by rfl, by rfl⟩

/-! ### Stored snapshot, defaults and error writes -/

/-- The stored usage record, in the shape of `DEFAULT_USAGE_DATA`
(`src/claudeKarma/lib/constants.js` lines 73-94) plus the `error` tag and
`fetchSource` written by the service worker.  A record fresh from the
defaults has no `error` key (`none`). -/
structure UsageData where
  currentSession : SessionSlot
  weeklyLimits : ScrapeWeeklyLimits
  lastFetchedAt : Option Int
  fetchSource : Option String
  error : Option String
deriving Repr, DecidableEq

/-- `DEFAULT_USAGE_DATA` (`src/claudeKarma/lib/constants.js`
lines 73-94): all percentages 0, all reset fields `null`,
`lastFetchedAt` and `fetchSource` `null`. -/
def DEFAULT_USAGE_DATA : UsageData :=
  ⟨⟨0, ResetTime.rnull⟩,
   ⟨⟨0, ResetTime.rnull, none, none⟩, ⟨0, ResetTime.rnull, none, none⟩⟩,
   none, none, none⟩

/-- `storage.getUsageData` (storage module, `getUsageData`):
`result[STORAGE_KEYS.USAGE_DATA] || { ...DEFAULT_USAGE_DATA }` — a
missing (falsy) stored record yields a copy of the defaults. -/
def getUsageData (stored : Option UsageData) : UsageData :=
  match stored with
  | some d => d
  | none => DEFAULT_USAGE_DATA

/-- `storage.setUsageData` (storage module): spreads the record and
overwrites `lastFetchedAt` with `Date.now()` at write time. -/
def setUsageDataWrite (d : UsageData) (writeNow : Int) : UsageData :=
  { d with lastFetchedAt := some writeNow }

/-- `handleNotAuthenticated` (`src/unnamed/part_003` lines 328-336):
read the stored record, set `error = 'not_authenticated'` and
`lastFetchedAt = Date.now()`, write it back through
`storage.setUsageData` (which stamps its own `Date.now()`). -/
def handleNotAuthenticated (d : UsageData) (now writeNow : Int) : UsageData :=
  setUsageDataWrite
    { d with error := some "not_authenticated", lastFetchedAt := some now }
    writeNow

/-- The `needs_setup` write of `fetchUsageData`
(`src/unnamed/part_003` lines 104-110): read the stored record, set
`error = 'needs_setup'` and `lastFetchedAt = Date.now()`, write it
back. -/
def markNeedsSetup (d : UsageData) (now writeNow : Int) : UsageData :=
  setUsageDataWrite
    { d with error := some "needs_setup", lastFetchedAt := some now }
    writeNow

/-- C7: both storage writes that set a non-none error tag
(`not_authenticated` and `needs_setup`) keep every percentage field of
the stored snapshot — `currentSession` and both `weeklyLimits` slots —
and the `fetchSource` unchanged; only the error tag and the fetch
timestamp are modified. -/
theorem c7_error_writes_preserve_percentages (d : UsageData) (n w : Int) :
    ((handleNotAuthenticated d n w).currentSession = d.currentSession ∧
     (handleNotAuthenticated d n w).weeklyLimits = d.weeklyLimits ∧
     (handleNotAuthenticated d n w).fetchSource = d.fetchSource ∧
     (handleNotAuthenticated d n w).error = some "not_authenticated" ∧
     (handleNotAuthenticated d n w).lastFetchedAt = some w) ∧
    ((markNeedsSetup d n w).currentSession = d.currentSession ∧
     (markNeedsSetup d n w).weeklyLimits = d.weeklyLimits ∧
     (markNeedsSetup d n w).fetchSource = d.fetchSource ∧
     (markNeedsSetup d n w).error = some "needs_setup" ∧
     (markNeedsSetup d n w).lastFetchedAt = some w) :=
  ⟨⟨rfl, rfl, rfl, rfl, rfl⟩, ⟨rfl, rfl, rfl, rfl, rfl⟩⟩

/-- C10: when no usage record has ever been written, `getUsageData`
returns the well-formed default record — all percentages 0, all reset
fields `null`, `lastFetchedAt` and `fetchSource` `null` — rather than
`undefined` or an error (the function is total into `UsageData`). -/
theorem c10_default_record :
    getUsageData none = DEFAULT_USAGE_DATA ∧
    (getUsageData none).currentSession.percentage = 0 ∧
    (getUsageData none).currentSession.resetTimestamp = ResetTime.rnull ∧
    (getUsageData none).weeklyLimits.allModels.percentage = 0 ∧
    (getUsageData none).weeklyLimits.allModels.resetTimestamp = ResetTime.rnull ∧
    (getUsageData none).weeklyLimits.allModels.resetDay = none ∧
    (getUsageData none).weeklyLimits.allModels.resetTime = none ∧
    (getUsageData none).weeklyLimits.sonnetOnly.percentage = 0 ∧
    (getUsageData none).weeklyLimits.sonnetOnly.resetTimestamp = ResetTime.rnull ∧
    (getUsageData none).weeklyLimits.sonnetOnly.resetDay = none ∧
    (getUsageData none).weeklyLimits.sonnetOnly.resetTime = none ∧
    (getUsageData none).lastFetchedAt = none ∧
    (getUsageData none).fetchSource = none := by
  refine ⟨rfl, rfl, rfl, rfl, rfl, rfl, rfl, rfl, rfl, rfl, rfl, rfl, rfl⟩

/-! ### Icon animation controller

Embedding of the module state and the animation functions of
`src/claudeKarma/lib/icon-renderer.js` (lines 12-22, 242-304).  The
platform's interval timers are modelled explicitly: `setInterval`
registers a fresh id in `platformTimers`, `clearInterval` removes it,
and a frame callback can fire only for a registered id — which is
exactly the guarantee `clearInterval` gives (no callback after it
returns).  Draw calls (`updateIcon`) are logged as events. -/

/-- The two animation types (`'pulse'`, `'spin'`). -/
inductive AnimType where
  | pulse : AnimType
  | spin : AnimType
deriving Repr, DecidableEq

/-- Logged draw calls: the final static draw of `stopAnimation`
(`updateIcon(s, w, { glowIntensity: 0 })`) and the per-frame draws of
`animationFrame`. -/
inductive IconEvent where
  | staticDraw (session weekly : ℚ) : IconEvent
  | framePulse (session weekly phase : ℚ) : IconEvent
  | frameSpin (phase : ℚ) : IconEvent
deriving Repr, DecidableEq

/-- Module-level animation state (`icon-renderer.js` lines 12-16) plus
the modelled timer platform and the draw log. -/
structure AnimState where
  animationInterval : Option Nat
  currentSession : ℚ
  currentWeekly : ℚ
  animationPhase : ℚ
  animationType : Option AnimType
  platformTimers : List Nat
  nextTimerId : Nat
  events : List IconEvent
deriving Repr, DecidableEq

/-- Initial module state: no interval, zero progress, phase 0, no type. -/
def animInit : AnimState := ⟨none, 0, 0, 0, none, [], 0, []⟩

/-- `PULSE_SPEED = 0.05` (`icon-renderer.js` line 21). -/
def PULSE_SPEED : ℚ := 5 / 100

/-- `SPIN_SPEED = 0.15` (`icon-renderer.js` line 22). -/
def SPIN_SPEED : ℚ := 15 / 100

/-- `animationFrame` (`icon-renderer.js` lines 242-252): advance the
phase by the type's speed, then draw a pulse or spinner frame; with no
type set, draw nothing. -/
def animationFrame (st : AnimState) : AnimState :=
  let newPhase := st.animationPhase +
    (if st.animationType = some AnimType.spin then SPIN_SPEED else PULSE_SPEED)
  let st1 := { st with animationPhase := newPhase }
  match st1.animationType with
  | some AnimType.pulse =>
    { st1 with events := st1.events ++
        [IconEvent.framePulse st1.currentSession st1.currentWeekly newPhase] }
  | some AnimType.spin =>
    { st1 with events := st1.events ++ [IconEvent.frameSpin newPhase] }
  | none => st1

/-- `stopAnimation(sessionProgress, weeklyProgress)` (`icon-renderer.js`
lines 274-289): synchronously `clearInterval` any running interval and
null it, clear the type, and — only when `sessionProgress !== undefined`
— commit the passed percentages and issue one static draw
(`updateIcon(s, w || 0, { glowIntensity: 0 })`). -/
def stopAnimation (sOpt wOpt : Option ℚ) (st : AnimState) : AnimState :=
  let st1 :=
    match st.animationInterval with
    | some id =>
      { st with platformTimers := st.platformTimers.erase id
                animationInterval := none }
    | none => st
  let st2 := { st1 with animationType := none }
  match sOpt with
  | some s =>
    let wv := wOpt.getD 0
    { st2 with currentSession := s
               currentWeekly := wv
               events := st2.events ++ [IconEvent.staticDraw s wv] }
  | none => st2

/-- `startAnimation(type, sessionProgress, weeklyProgress)`
(`icon-renderer.js` lines 257-269): first `stopAnimation()` with no
arguments, then set the type (`type || 'pulse'`), the progress values
(`x || 0`), reset the phase to 0, and `setInterval` a fresh frame
timer. -/
def startAnimation (t : Option AnimType) (sOpt wOpt : Option ℚ)
    (st : AnimState) : AnimState :=
  let st1 := stopAnimation none none st
  let st2 := { st1 with
    animationType := some (t.getD AnimType.pulse)
    currentSession := sOpt.getD 0
    currentWeekly := wOpt.getD 0
    animationPhase := 0 }
  { st2 with
    platformTimers := st2.platformTimers ++ [st2.nextTimerId]
    nextTimerId := st2.nextTimerId + 1
    animationInterval := some st2.nextTimerId }

/-- A platform timer tick: the frame callback runs only for an id whose
interval is still registered (`clearInterval` guarantees no callback
fires after it returns). -/
def timerTick (id : Nat) (st : AnimState) : AnimState :=
  if id ∈ st.platformTimers then animationFrame st else st

/-- External operations on the animation module. -/
inductive AnimOp where
  | start (t : Option AnimType) (s w : Option ℚ) : AnimOp
  | stop (s w : Option ℚ) : AnimOp
  | tick (id : Nat) : AnimOp
deriving Repr, DecidableEq

/-- Apply one operation. -/
def animStep (st : AnimState) : AnimOp → AnimState
  | AnimOp.start t s w => startAnimation t s w st
  | AnimOp.stop s w => stopAnimation s w st
  | AnimOp.tick id => timerTick id st

/-- Run a sequence of operations from the initial module state. -/
def animRun (ops : List AnimOp) : AnimState :=
  ops.foldl animStep animInit

/-- Timer invariant: the registered platform timers are exactly the one
tracked in `animationInterval` (if any). -/
def animTimerInv (st : AnimState) : Prop :=
  st.platformTimers = st.animationInterval.toList

theorem stopAnimation_clears (sOpt wOpt : Option ℚ) (st : AnimState)
    (h : animTimerInv st) :
    (stopAnimation sOpt wOpt st).platformTimers = [] ∧
    (stopAnimation sOpt wOpt st).animationInterval = none := by
  unfold animTimerInv at h
  unfold stopAnimation
  cases hi : st.animationInterval with
  | none =>
    rw [hi] at h
    cases sOpt <;> simp [h, hi]
  | some id =>
    rw [hi] at h
    cases sOpt <;> simp [h, hi, List.erase_cons_head]

theorem stopAnimation_events_some (s : ℚ) (wOpt : Option ℚ) (st : AnimState) :
    (stopAnimation (some s) wOpt st).events =
      st.events ++ [IconEvent.staticDraw s (wOpt.getD 0)] ∧
    (stopAnimation (some s) wOpt st).currentSession = s ∧
    (stopAnimation (some s) wOpt st).currentWeekly = wOpt.getD 0 := by
  unfold stopAnimation
  cases hi : st.animationInterval <;> exact ⟨rfl, rfl, rfl⟩

theorem animationFrame_frame (st : AnimState) :
    (animationFrame st).platformTimers = st.platformTimers ∧
    (animationFrame st).animationInterval = st.animationInterval := by
  unfold animationFrame
  rcases ht : st.animationType with _ | t
  · exact ⟨rfl, rfl⟩
  · cases t <;> simp [ht]

theorem animStep_inv (st : AnimState) (op : AnimOp) (h : animTimerInv st) :
    animTimerInv (animStep st op) := by
  cases op with
  | start t s w =>
    have hc := stopAnimation_clears none none st h
    show (startAnimation t s w st).platformTimers =
      (startAnimation t s w st).animationInterval.toList
    unfold startAnimation
    simp [hc.1]
  | stop s w =>
    have hc := stopAnimation_clears s w st h
    show (stopAnimation s w st).platformTimers =
      (stopAnimation s w st).animationInterval.toList
    rw [hc.1, hc.2]
    rfl
  | tick id =>
    unfold animTimerInv at h
    show (timerTick id st).platformTimers =
      (timerTick id st).animationInterval.toList
    unfold timerTick
    split
    · have hf := animationFrame_frame st
      rw [hf.1, hf.2]
      exact h
    · exact h

theorem animFoldl_inv (ops : List AnimOp) :
    ∀ st : AnimState, animTimerInv st → animTimerInv (ops.foldl animStep st) := by
  induction ops with
  | nil => intro st h; exact h
  | cons op rest ih =>
    intro st h
    exact ih (animStep st op) (animStep_inv st op h)

theorem animRun_inv (ops : List AnimOp) : animTimerInv (animRun ops) :=
  animFoldl_inv ops animInit rfl

/-- C9: at most one animation timer exists in any reachable module
state; a `startAnimation` call (which first runs the no-argument
`stopAnimation`) leaves exactly one registered timer and resets the
animation phase to 0 — repeated starts never accumulate frame loops. -/
theorem c9_at_most_one_timer (ops : List AnimOp) (t : Option AnimType)
    (s w : Option ℚ) :
    (animRun ops).platformTimers.length ≤ 1 ∧
    (startAnimation t s w (animRun ops)).platformTimers.length = 1 ∧
    (startAnimation t s w (animRun ops)).animationPhase = 0 := by
  have hinv := animRun_inv ops
  have hc := stopAnimation_clears none none (animRun ops) hinv
  refine ⟨?_, ?_, ?_⟩
  · rw [hinv]
    cases (animRun ops).animationInterval <;> simp
  · unfold startAnimation
    simp [hc.1]
  · unfold startAnimation
    rfl

/-- Sequence of platform ticks. -/
def runTicks (ids : List Nat) (st : AnimState) : AnimState :=
  ids.foldl (fun s i => timerTick i s) st

theorem timerTick_no_timer (id : Nat) (st : AnimState)
    (h : st.platformTimers = []) : timerTick id st = st := by
  unfold timerTick
  simp [h]

theorem runTicks_no_timer (ids : List Nat) :
    ∀ st : AnimState, st.platformTimers = [] → runTicks ids st = st := by
  induction ids with
  | nil => intro st _; rfl
  | cons i rest ih =>
    intro st h
    show (rest.foldl (fun s j => timerTick j s) (timerTick i st)) = st
    rw [timerTick_no_timer i st h]
    exact ih st h

/-- The module state after starting a pulse ("Warning") animation at 80%
usage: the mid-Warning situation of the claim. -/
def c8MidWarning : AnimState :=
  startAnimation (some AnimType.pulse) (some (8 / 10)) (some (8 / 10)) animInit

/-- C8 counterexample: the claim says every call to the stop operation
issues exactly one final static draw.  The no-argument call
`stopAnimation()` — performed by `startAnimation` itself
(`icon-renderer.js` line 258) — cancels the timer but issues zero
draws: on the mid-Warning state its event log stays empty. -/
theorem c8_stop_counterexample :
    (stopAnimation none none c8MidWarning).animationInterval = none ∧
    (stopAnimation none none c8MidWarning).platformTimers = [] ∧
    c8MidWarning.events = [] ∧
    (stopAnimation none none c8MidWarning).events = [] := by
  refine ⟨rfl, rfl, rfl, rfl⟩

/-- C8 amended: every call to the stop operation that passes percentages
(as at all the service worker's stop sites) synchronously cancels the
repeating frame timer, commits the passed percentages, and issues
exactly one static draw reflecting them, and no frame callback fires
after it returns (any sequence of subsequent ticks adds no event); the
internal no-argument call cancels the timer but draws nothing. -/
theorem c8_stop_cancels_and_draws_once (ops : List AnimOp) (s : ℚ)
    (w : Option ℚ) (ticks : List Nat) :
    (stopAnimation (some s) w (animRun ops)).animationInterval = none ∧
    (stopAnimation (some s) w (animRun ops)).platformTimers = [] ∧
    (stopAnimation (some s) w (animRun ops)).events =
      (animRun ops).events ++ [IconEvent.staticDraw s (w.getD 0)] ∧
    (stopAnimation (some s) w (animRun ops)).currentSession = s ∧
    (stopAnimation (some s) w (animRun ops)).currentWeekly = w.getD 0 ∧
    runTicks ticks (stopAnimation (some s) w (animRun ops)) =
      stopAnimation (some s) w (animRun ops) := by
  have hinv := animRun_inv ops
  have hc := stopAnimation_clears (some s) w (animRun ops) hinv
  have he := stopAnimation_events_some s w (animRun ops)
  exact ⟨hc.2, hc.1, he.1, he.2.1, he.2.2,
    runTicks_no_timer ticks _ hc.1⟩

end ClaudeKarma
